import Mathlib

/-
Shallow embedding of `src/main.py` (AAAI Knowledge Graph Papers Crawler).

Pure string processing (`_titles_match`, filename sanitisation, the DBLP
hit filter, the arXiv entry scan, the source-selection cascade) is
translated function-for-function.  Network transport and the filesystem
are made explicit: HTTP responses are supplied by oracle functions and
the filesystem is an association list from path to file data, so the
side effects of `download_paper`, `save_results` and `run` become pure
state transitions.  Python character classes `\w` and `\s` are modelled
at their ASCII meaning, and `x.lower()` by ASCII lowering, which agree
with Python on all ASCII input.  The float comparison `overlap > 0.7`
is modelled exactly as the rational comparison `10*overlap_count >
7*min_size`, which coincides with the CPython double computation for
all set sizes that can arise here.
-/

namespace Crawler

/-- ASCII model of Python's regex class `\w`: alphanumeric or underscore. -/
def pyWordChar (c : Char) : Bool := c.isAlphanum || c == '_'

/-- ASCII model of Python's regex class `\s` / `str.split()` whitespace:
space, tab, newline, carriage return, vertical tab, form feed. -/
def pySpace (c : Char) : Bool :=
  c == ' ' || c == '\t' || c == '\n' || c == '\r' ||
  c == Char.ofNat 11 || c == Char.ofNat 12

/-- Does `l` start with `p`? (used to model Python's `in` / `endswith`). -/
def startsWithL : List Char → List Char → Bool
  | _, [] => true
  | [], _ :: _ => false
  | c :: cs, d :: ds => c == d && startsWithL cs ds

/-- Model of Python's `needle in hay` substring test on strings. -/
def inL (needle : List Char) : List Char → Bool
  | [] => startsWithL [] needle
  | c :: t => startsWithL (c :: t) needle || inL needle t

/-- `needle in hay` on `String`. -/
def inS (needle hay : String) : Bool := inL needle.data hay.data

/-- Model of Python's `s.endswith(t)`. -/
def endsWithS (s t : String) : Bool := startsWithL s.data.reverse t.data.reverse

/-- Model of Python's `s.split()` (split on whitespace runs, no empties);
`acc` holds the current token reversed. -/
def pySplitAux : List Char → List Char → List (List Char)
  | [], acc => if acc.isEmpty then [] else [acc.reverse]
  | c :: rest, acc =>
    if pySpace c then
      if acc.isEmpty then pySplitAux rest [] else acc.reverse :: pySplitAux rest []
    else pySplitAux rest (c :: acc)

/-- Model of Python's `s.split()`. -/
def pySplit (l : List Char) : List (List Char) := pySplitAux l []

/-- Model of `re.sub(r'[^\w\s]', ' ', s)`: every character that is neither
a word character nor whitespace becomes a space. -/
def stripPunct (l : List Char) : List Char :=
  l.map (fun c => if pyWordChar c || pySpace c then c else ' ')

/-- The inner `normalize` of `_titles_match` (main.py lines 167-171):
lower-case, strip punctuation to spaces, collapse whitespace by
splitting and re-joining with single spaces. -/
def normalizeL (l : List Char) : List Char :=
  List.intercalate [' '] (pySplit (stripPunct (l.map Char.toLower)))

/-- `normalize` on `String`. -/
def normalizeS (s : String) : String := ⟨normalizeL s.data⟩

/-- `s.split()` on a `String`, producing `String` tokens. -/
def pySplitS (s : String) : List String := (pySplit s.data).map (fun l => ⟨l⟩)

/-- The stop-word set removed in `_titles_match` (main.py line 189). -/
def common_words : Finset String :=
  (["the", "a", "an", "of", "in", "on", "at", "to", "for", "and", "or", "with"]).toFinset

/-- Token set of a normalized title after stop-word removal
(`set(t.split()) - common_words`, main.py lines 185-191). -/
def wordSet (t : String) : Finset String := (pySplitS t).toFinset \ common_words

/-- The word-overlap fallback of `_titles_match` (main.py lines 193-197):
if both token sets are non-empty, match when
`len(words1 & words2) / min(len(words1), len(words2)) > 0.7`,
modelled exactly as `10 * |A ∩ B| > 7 * min |A| |B|`; otherwise no match. -/
def ratioHit (A B : Finset String) : Bool :=
  if 0 < A.card && 0 < B.card then
    decide (7 * min A.card B.card < 10 * (A ∩ B).card)
  else false

/-- `_titles_match` (main.py lines 164-197): exact match after
normalization, then substring containment in either direction, then the
stop-word-filtered overlap-ratio fallback. -/
def titles_match (title1 title2 : String) : Bool :=
  if normalizeS title1 == normalizeS title2 then true
  else if inS (normalizeS title1) (normalizeS title2)
         || inS (normalizeS title2) (normalizeS title1) then true
  else ratioHit (wordSet (normalizeS title1)) (wordSet (normalizeS title2))

/-- Restatement of the matching rule in the words of the specification
(§4.1): equal after normalization, or one normalized title a substring
of the other, or both stop-word-filtered token sets non-empty with
overlap ratio `|A ∩ B| / min(|A|, |B|)` strictly above 0.7; otherwise
no match. -/
def titles_match_spec (title1 title2 : String) : Bool :=
  (normalizeS title1 == normalizeS title2)
  || inS (normalizeS title1) (normalizeS title2)
  || inS (normalizeS title2) (normalizeS title1)
  || (decide (wordSet (normalizeS title1)).Nonempty
      && decide (wordSet (normalizeS title2)).Nonempty
      && decide (7 * min (wordSet (normalizeS title1)).card (wordSet (normalizeS title2)).card
                   < 10 * ((wordSet (normalizeS title1)) ∩ (wordSet (normalizeS title2))).card))

/-- Shape of the `authors` field in a DBLP hit, as discriminated by
`_extract_authors` (main.py lines 93-103): missing/`absent`, a list, a
bare string, or a single structured object whose `text` field may be
missing. -/
inductive JAuthor where
  | str (s : String)
  | obj (text : Option String)
deriving DecidableEq, Repr

/-- The value of `info['authors']` handed to `_extract_authors`. -/
inductive JAuthors where
  | absent
  | list (l : List JAuthor)
  | single (s : String)
  | obj (text : Option String)
deriving DecidableEq, Repr

/-- `_extract_authors` (main.py lines 93-103): collapse the three
server-side author shapes to a list of name strings; a structured
object contributes its `text` field, defaulting to the empty string. -/
def extract_authors : JAuthors → List String
  | .absent => []
  | .list l => l.map (fun a => match a with | .str s => s | .obj t => t.getD "")
  | .single s => [s]
  | .obj t => [t.getD ""]

/-- One server hit's `info` object from the DBLP response
(main.py lines 63-77); each string field defaults to `""` upstream. -/
structure Hit where
  title : String
  authors : JAuthors
  year : String
  venue : String
  url : String
  ee : String
  key : String
  doi : String
deriving DecidableEq, Repr

/-- The paper dictionary built in `search_dblp` (main.py lines 69-79). -/
structure Paper where
  title : String
  authors : List String
  year : String
  venue : String
  url : String
  ee : String
  key : String
  doi : String
  source : String
deriving DecidableEq, Repr

/-- ASCII model of `s.lower()`. -/
def lowerS (s : String) : String := ⟨s.data.map Char.toLower⟩

/-- Construction of the paper record from a hit (main.py lines 69-79). -/
def hitToPaper (h : Hit) : Paper :=
  ⟨h.title, extract_authors h.authors, h.year, h.venue, h.url, h.ee, h.key, h.doi, "DBLP"⟩

/-- The two filters of `search_dblp` combined (main.py lines 68 and 82):
keyword is a case-insensitive substring of the title, and the requested
venue is a case-insensitive substring of the hit's venue. -/
def keepHit (keyword venue : String) (h : Hit) : Bool :=
  inS (lowerS keyword) (lowerS h.title) && inS (lowerS venue) (lowerS h.venue)

/-- The per-year hit loop of `search_dblp` (main.py lines 63-84):
append to `papers` each hit whose title contains the keyword
(case-insensitively) and whose venue contains the requested venue
(case-insensitively). -/
def addHits (keyword venue : String) (papers : List Paper) (hits : List Hit) : List Paper :=
  hits.foldl
    (fun acc h =>
      if inS (lowerS keyword) (lowerS h.title) then
        let p := hitToPaper h
        if inS (lowerS venue) (lowerS p.venue) then acc ++ [p] else acc
      else acc)
    papers

/-- `search_dblp` (main.py lines 33-91).  The HTTP layer is an oracle
`respond : year ↦ Option (List Hit)`; `none` models the `except` branch
(network error or malformed response, main.py lines 88-89), which is
logged and skipped, and `some hits` a parsed response.  Both the target
year and the previous year are queried, in that order. -/
def search_dblp (keyword venue : String) (year : Int)
    (respond : Int → Option (List Hit)) : List Paper :=
  [year, year - 1].foldl
    (fun papers y =>
      match respond y with
      | some hits => addHits keyword venue papers hits
      | none => papers)
    []

/-- A `<link>` element of an arXiv Atom entry: its optional `title`
attribute and its `href`. -/
structure ArxivLink where
  linkTitle : Option String
  href : String
deriving DecidableEq, Repr

/-- An `<entry>` of an arXiv Atom response: reported title and links. -/
structure ArxivEntry where
  title : String
  links : List ArxivLink
deriving DecidableEq, Repr

/-- Model of `pdf_url.replace('/abs/', '/pdf/')` (main.py line 152):
replace every non-overlapping occurrence, left to right. -/
def replaceAbs : List Char → List Char
  | '/' :: 'a' :: 'b' :: 's' :: '/' :: rest => '/' :: 'p' :: 'd' :: 'f' :: '/' :: replaceAbs rest
  | c :: rest => c :: replaceAbs rest
  | [] => []

/-- The URL fix-up of `search_arxiv_for_paper` (main.py lines 150-152):
if the href does not contain `/pdf/`, rewrite `/abs/` to `/pdf/` and
append `.pdf`. -/
def fixPdfUrl (u : String) : String :=
  if inS "/pdf/" u then u else (⟨replaceAbs u.data⟩ : String) ++ ".pdf"

/-- The inner link loop of `search_arxiv_for_paper` (main.py lines
146-155): return the fixed href of the first link whose `title`
attribute equals `pdf`. -/
def pdfLinkScan : List ArxivLink → Option String
  | [] => none
  | l :: rest =>
    if l.linkTitle == some "pdf" then some (fixPdfUrl l.href) else pdfLinkScan rest

/-- The entry loop of `search_arxiv_for_paper` (main.py lines 140-155)
for one query's parsed results: on an entry whose title fuzzy-matches
the original, return the first pdf-typed link's (fixed) href; an entry
with no pdf-typed link falls through to the next entry. -/
def arxivScanEntries (origTitle : String) : List ArxivEntry → Option String
  | [] => none
  | e :: rest =>
    if titles_match origTitle e.title then
      match pdfLinkScan e.links with
      | some u => some u
      | none => arxivScanEntries origTitle rest
    else arxivScanEntries origTitle rest

/-- Which strategy supplied the chosen URL; `sourceName` gives the
string the code stores (main.py lines 223, 230, 236). -/
inductive Provenance where
  | openAccessIndex
  | directLinkFromIndex
  | broadLinkFromIndex
deriving DecidableEq, Repr

/-- The `source` string recorded for each provenance. -/
def sourceName : Provenance → String
  | .openAccessIndex => "arXiv"
  | .directLinkFromIndex => "DBLP direct link"
  | .broadLinkFromIndex => "DBLP EE link"

/-- The source-selection cascade of `download_paper` (main.py lines
214-245): the arXiv result if any; else the candidate's `ee` link when
non-empty — directly if it ends in `.pdf` or contains `arxiv.org/pdf`,
skipped if it contains `ojs.aaai.org` or `doi.org/10.1609`, and as a
broad link otherwise. -/
def selectSource (arxivUrl : Option String) (ee : String) : Option (String × Provenance) :=
  match arxivUrl with
  | some u => some (u, Provenance.openAccessIndex)
  | none =>
    if ee ≠ "" then
      if endsWithS ee ".pdf" || inS "arxiv.org/pdf" ee then
        some (ee, Provenance.directLinkFromIndex)
      else if inS "ojs.aaai.org" ee || inS "doi.org/10.1609" ee then none
      else some (ee, Provenance.broadLinkFromIndex)
    else none

/-- Restatement of the selection policy in the specification's words
(§4.4 / claim): (1) the open-access resolver result if present; (2)
otherwise the embedded direct link when it looks like a direct content
pointer; (3) otherwise the embedded direct link as a broad link unless
it matches a paywalled-venue pattern, in which case no source; absent
link and absent resolver result give no source. -/
def select_spec (resolverResult : Option String) (directLink : String) :
    Option (String × Provenance) :=
  match resolverResult with
  | some u => some (u, Provenance.openAccessIndex)
  | none =>
    if directLink == "" then none
    else if endsWithS directLink ".pdf" || inS "arxiv.org/pdf" directLink then
      some (directLink, Provenance.directLinkFromIndex)
    else if inS "ojs.aaai.org" directLink || inS "doi.org/10.1609" directLink then none
    else some (directLink, Provenance.broadLinkFromIndex)

/-- One record appended to `self.failed_downloads`; `url` is absent in
the no-source branch (main.py lines 240-244). -/
structure Failure where
  idx : Nat
  title : String
  reason : String
  url : Option String
deriving DecidableEq, Repr

/-- Content of one file in the output directory: a (possibly truncated)
PDF byte stream, a per-paper metadata record, or one of the aggregate
reports of `save_results`. -/
inductive FileData where
  | pdf (content : List Nat)
  | meta (paper : Paper) (source : String) (url : String) (date : String)
  | papersJson (papers : List Paper)
  | failedJson (failed : List Failure)
  | report (total : Nat) (succeeded : Nat) (failed : List Failure) (date : String)
deriving DecidableEq, Repr

/-- The output directory as an association list from path to data. -/
abbrev FS := List (String × FileData)

/-- `os.path.exists` on the modelled directory. -/
def fsExists (fs : FS) (p : String) : Bool := fs.any (fun e => e.1 == p)

/-- `open(p, 'wb')` + write: create or overwrite the file at `p`. -/
def fsSet (fs : FS) (p : String) (d : FileData) : FS :=
  (p, d) :: fs.filter (fun e => !(e.1 == p))

/-- Mutable crawler state: the output directory and the process-wide
`self.failed_downloads` list (main.py line 31). -/
structure CState where
  files : FS
  failedDownloads : List Failure
deriving DecidableEq, Repr

/-- Outcome of `self.session.get(pdf_url, stream=True, ...)` plus the
subsequent streaming write (main.py lines 251-274):
`ok chunks contentType` — 2xx response whose stream completes;
`forbidden` — status 403 (main.py line 254);
`fetchExn msg` — exception raised by the request itself or by
`raise_for_status` (no file is created);
`streamExn written msg` — exception during `iter_content` after the
chunks `written` were already written to the open file. -/
inductive FetchResult where
  | ok (chunks : List (List Nat)) (contentType : String)
  | forbidden
  | fetchExn (msg : String)
  | streamExn (written : List (List Nat)) (msg : String)
deriving DecidableEq, Repr

/-- External world of one crawler: output directory, the arXiv resolver
outcome for a (title, authors) pair (`search_arxiv_for_paper`, whose
network side is abstracted; `none` covers both "no match" and its
swallowed transport errors), the transport result of fetching a URL,
and the clock value used for timestamps. -/
structure Env where
  outputDir : String
  arxiv : String → List String → Option String
  fetch : String → FetchResult

/-- Zero-padded 3-digit index `f"{index:03d}"`. -/
def pad3 (n : Nat) : String :=
  let s := toString n
  if s.length < 3 then (⟨List.replicate (3 - s.length) '0'⟩ : String) ++ s else s

/-- Characters kept by `re.sub(r'[^\w\s-]', '', title)`. -/
def keepSafe (c : Char) : Bool := pyWordChar c || pySpace c || c == '-'

/-- Collapse each run of hyphens/whitespace to a single hyphen
(`re.sub(r'[-\s]+', '-', s)`), realised as: map the run characters to
`'-'`, then merge adjacent hyphens. -/
def squeezeDash : List Char → List Char
  | [] => []
  | c :: rest =>
    let c' := if pySpace c || c == '-' then '-' else c
    match squeezeDash rest with
    | [] => [c']
    | d :: ds => if c' == '-' && d == '-' then d :: ds else c' :: d :: ds

/-- `safe_title` (main.py lines 204-205): drop characters outside
`[\w\s-]`, truncate to 80 characters, collapse `[-\s]+` runs to `-`. -/
def safeTitle (t : String) : String := ⟨squeezeDash ((t.data.filter keepSafe).take 80)⟩

/-- The PDF filename `f"{index:03d}_{safe_title}.pdf"` (main.py line 206). -/
def fileNameFor (i : Nat) (t : String) : String := pad3 i ++ "_" ++ safeTitle t ++ ".pdf"

/-- The deterministic artifact path of a candidate (main.py line 207). -/
def filePathFor (env : Env) (p : Paper) (i : Nat) : String :=
  env.outputDir ++ "/" ++ fileNameFor i p.title

/-- The sibling metadata path `f"{index:03d}_metadata.json"` (main.py line 284). -/
def metaPathFor (env : Env) (i : Nat) : String :=
  env.outputDir ++ "/" ++ pad3 i ++ "_metadata.json"

/-- Externally visible network activity of one `download_paper` call. -/
inductive NetEvent where
  | resolverSearch (title : String)
  | fetchUrl (url : String)
deriving DecidableEq, Repr

/-- Result of one `download_paper` call: the returned boolean, the
crawler state after the call, and the network calls performed. -/
structure DownloadResult where
  ok : Bool
  state : CState
  events : List NetEvent
deriving DecidableEq, Repr

/-- Number of transport fetches among the recorded events. -/
def countFetch (evs : List NetEvent) : Nat :=
  (evs.filter (fun e => match e with | .fetchUrl _ => true | _ => false)).length

/-- `download_paper` (main.py lines 199-301) as a state transition.
If the artifact path already exists the call returns `True` at once
(lines 210-212).  Otherwise `search_arxiv_for_paper` is consulted and
the source cascade `selectSource` runs (lines 214-236); with no source
a failure record without URL is appended (lines 238-245).  With a
source, the fetch either hits a 403 (failure record, lines 254-262),
raises (failure record with `str(e)`, lines 293-301; when the stream
breaks mid-write the partially written chunks remain on disk, since the
`except` branch does not remove `filepath`), or completes, in which
case the PDF bytes and then the metadata file are written (lines
272-286). -/
def download_paper (env : Env) (now : String) (paper : Paper) (index : Nat)
    (st : CState) : DownloadResult :=
  let filepath := filePathFor env paper index
  if fsExists st.files filepath then ⟨true, st, []⟩
  else
    match selectSource (env.arxiv paper.title paper.authors) paper.ee with
    | none =>
      ⟨false,
       ⟨st.files,
        st.failedDownloads ++ [⟨index, paper.title, "No accessible PDF URL found", none⟩]⟩,
       [NetEvent.resolverSearch paper.title]⟩
    | some (url, prov) =>
      let source := sourceName prov
      match env.fetch url with
      | .forbidden =>
        ⟨false,
         ⟨st.files,
          st.failedDownloads ++ [⟨index, paper.title, "403 Forbidden from " ++ source, some url⟩]⟩,
         [NetEvent.resolverSearch paper.title, NetEvent.fetchUrl url]⟩
      | .fetchExn msg =>
        ⟨false,
         ⟨st.files, st.failedDownloads ++ [⟨index, paper.title, msg, some url⟩]⟩,
         [NetEvent.resolverSearch paper.title, NetEvent.fetchUrl url]⟩
      | .streamExn written msg =>
        ⟨false,
         ⟨fsSet st.files filepath (FileData.pdf written.flatten),
          st.failedDownloads ++ [⟨index, paper.title, msg, some url⟩]⟩,
         [NetEvent.resolverSearch paper.title, NetEvent.fetchUrl url]⟩
      | .ok chunks _contentType =>
        ⟨true,
         ⟨fsSet (fsSet st.files filepath (FileData.pdf chunks.flatten))
            (metaPathFor env index) (FileData.meta paper source url now),
          st.failedDownloads⟩,
         [NetEvent.resolverSearch paper.title, NetEvent.fetchUrl url]⟩

/-- `save_results` (main.py lines 303-337): always write
`all_papers.json`; only when the failure list is non-empty, also write
`failed_downloads.json` and then `download_report.txt`, whose counts
are `len(papers)`, `len(papers) - len(failed)` and the failures. -/
def save_results (env : Env) (now : String) (papers : List Paper)
    (failed : List Failure) (fs : FS) : FS :=
  let fs1 := fsSet fs (env.outputDir ++ "/all_papers.json") (FileData.papersJson papers)
  if failed.isEmpty then fs1
  else
    let fs2 := fsSet fs1 (env.outputDir ++ "/failed_downloads.json") (FileData.failedJson failed)
    fsSet fs2 (env.outputDir ++ "/download_report.txt")
      (FileData.report papers.length (papers.length - failed.length) failed now)

/-- The download loop of `run` (main.py lines 361-367): papers are
processed with 1-based indices, threading the crawler state and
counting successes. -/
def runLoop (env : Env) (now : String) :
    List Paper → Nat → CState → Nat → Nat × CState
  | [], _, st, succ => (succ, st)
  | p :: rest, i, st, succ =>
    let r := download_paper env now p i st
    runLoop env now rest (i + 1) r.state (if r.ok then succ + 1 else succ)

/-- Observable outcome of one `run`. -/
structure RunResult where
  papers : List Paper
  successCount : Nat
  final : CState
deriving DecidableEq, Repr

/-- `run` (main.py lines 339-383): search DBLP; with no papers return
at once (lines 350-352, before any report is written); otherwise
download every paper starting from the constructor state (empty failure
list, line 31) and finish with `save_results`. -/
def run (env : Env) (now : String) (fs0 : FS) (respond : Int → Option (List Hit))
    (keyword venue : String) (year : Int) : RunResult :=
  let papers := search_dblp keyword venue year respond
  if papers.isEmpty then ⟨papers, 0, ⟨fs0, []⟩⟩
  else
    let r := runLoop env now papers 1 ⟨fs0, []⟩ 0
    ⟨papers, r.1, ⟨save_results env now papers r.2.failedDownloads r.2.files, r.2.failedDownloads⟩⟩

/-- Concrete arXiv entry whose title matches but which carries no
pdf-typed link. -/
def entryNoPdf : ArxivEntry :=
  ⟨"Temporal Knowledge Graph Forecasting",
   [⟨some "doi", "https://doi.org/10.1609/aaai.v38"⟩,
    ⟨none, "http://arxiv.org/abs/2403.00001v1"⟩]⟩

/-- Concrete arXiv entry with a pdf-typed link whose href needs the
`/abs/` → `/pdf/` rewrite. -/
def entryPdf : ArxivEntry :=
  ⟨"Knowledge Graph Completion Revisited",
   [⟨some "pdf", "http://arxiv.org/abs/2401.12345v2"⟩]⟩

/-- Concrete DBLP hit from the previous year, with a list-shaped author
field and a direct arXiv pdf `ee` link. -/
def hitW : Hit :=
  ⟨"Knowledge Graph Reasoning at Scale",
   JAuthors.list [JAuthor.str "Alice Smith", JAuthor.obj (some "Bo Li")],
   "2024", "AAAI", "https://dblp.org/rec/conf/aaai/x", "http://arxiv.org/pdf/2402.00002v1",
   "conf/aaai/x", ""⟩

/-- Concrete DBLP hit from the target year, single-string author field. -/
def hitW2025 : Hit :=
  ⟨"A Survey of Knowledge Graph Embeddings", JAuthors.single "Carol Jones",
   "2025", "AAAI", "", "", "", ""⟩

/-- Oracle where the target-year query errors and the previous year
succeeds. -/
def respondFailY : Int → Option (List Hit) :=
  fun z => if z = 2025 then none else if z = 2024 then some [hitW] else none

/-- Oracle where both years' queries succeed. -/
def respondBothY : Int → Option (List Hit) :=
  fun z => if z = 2025 then some [hitW2025] else if z = 2024 then some [hitW] else none

/-- Concrete candidate with no embedded `ee` link. -/
def paperN : Paper :=
  ⟨"Neural Knowledge Graph Inference", ["Alice Smith"], "2024", "AAAI", "", "", "", "", "DBLP"⟩

/-- World where the resolver finds an arXiv pdf URL and every fetch
breaks mid-stream after two chunks were written. -/
def envBad : Env :=
  ⟨"aaai_kg_papers", fun _ _ => some "http://arxiv.org/pdf/9999.00001v1",
   fun _ => FetchResult.streamExn [[37, 80], [68, 70]] "Connection reset by peer"⟩

/-- World where the resolver finds an arXiv pdf URL and every fetch
succeeds with one chunk. -/
def envRun : Env :=
  ⟨"aaai_kg_papers", fun _ _ => some "http://arxiv.org/pdf/9999.00001v1",
   fun _ => FetchResult.ok [[37, 80, 68, 70]] "application/pdf"⟩

/-- The word-overlap fallback is symmetric in its two token sets. -/
theorem ratioHit_comm (A B : Finset String) : ratioHit A B = ratioHit B A := by
  unfold ratioHit
  rw [Finset.inter_comm, Nat.min_comm, Bool.and_comm]

/-- The link scan takes the first pdf-typed link and fixes its href. -/
theorem pdfLinkScan_eq_find (links : List ArxivLink) :
    pdfLinkScan links
      = (links.find? (fun l => l.linkTitle == some "pdf")).map (fun l => fixPdfUrl l.href) := by
  induction links with
  | nil => rfl
  | cons l rest ih =>
    cases h : (l.linkTitle == some "pdf") with
    | true => simp [pdfLinkScan, h, List.find?_cons_of_pos _ h]
    | false =>
      have hn : ¬((fun l : ArxivLink => l.linkTitle == some "pdf") l = true) := by simp [h]
      simp [pdfLinkScan, h, List.find?_cons_of_neg _ hn, ih]

/-- C1: `titles_match` decides exactly the rule stated in the spec —
equality after normalization, substring containment in either
direction, or (both stop-word-filtered token sets non-empty and)
overlap ratio strictly above 0.7, and in particular
`titles_match "A Fast Algorithm" "A Quick Algorithm"` is false because
the overlap ratio is 1/2. -/
theorem titles_match_matches_spec :
    (∀ x y, titles_match x y = titles_match_spec x y) ∧
    titles_match "A Fast Algorithm" "A Quick Algorithm" = false := by
  constructor
  · intro x y
    unfold titles_match titles_match_spec ratioHit
    rcases h1 : (normalizeS x == normalizeS y) with _ | _ <;>
    rcases h2 : inS (normalizeS x) (normalizeS y) with _ | _ <;>
    rcases h3 : inS (normalizeS y) (normalizeS x) with _ | _ <;>
    simp [h1, h2, h3, Finset.card_pos]
  · decide

/-- C9: `titles_match` is symmetric — normalization acts on each side
independently, containment is tested in both directions, and the
overlap ratio uses intersection and minimum, both commutative. -/
theorem titles_match_symmetric : ∀ a b, titles_match a b = titles_match b a := by
  intro a b
  unfold titles_match
  by_cases h : normalizeS a = normalizeS b
  · simp [h]
  · have h1 : (normalizeS a == normalizeS b) = false := beq_eq_false_iff_ne.mpr h
    have h2 : (normalizeS b == normalizeS a) = false := beq_eq_false_iff_ne.mpr (Ne.symm h)
    simp only [h1, h2, Bool.false_eq_true, if_false]
    rw [Bool.or_comm]
    rcases ho : (inS (normalizeS b) (normalizeS a) || inS (normalizeS a) (normalizeS b))
        with _ | _ <;>
      simp [ho, ratioHit_comm]

/-- C4: the source-selection cascade of `download_paper` implements the
specified fixed strategy order — resolver result first, then the
embedded direct link when it looks like a direct PDF pointer, then the
embedded link as a broad link unless it matches a paywalled-venue
pattern (in which case no source), and no source when neither a
resolver hit nor an embedded link exists. -/
theorem select_source_follows_spec :
    ∀ arxivUrl ee, selectSource arxivUrl ee = select_spec arxivUrl ee := by
  intro arxivUrl ee
  cases arxivUrl with
  | some u => rfl
  | none =>
    unfold selectSource select_spec
    by_cases h : ee = ""
    · simp [h]
    · simp [h, beq_eq_false_iff_ne.mpr h]

/-- C5 (counterexample): the first result's title matches, the result
has an abstract-page link but no pdf-typed link, yet the scan returns
nothing — the resolver does continue past a title-matching result
without returning a URL, and in particular does not derive a pdf URL
from the abstract-page link. -/
theorem arxiv_scan_continues_past_first_match :
    titles_match "Temporal Knowledge Graph Forecasting" entryNoPdf.title = true ∧
    arxivScanEntries "Temporal Knowledge Graph Forecasting" [entryNoPdf] = none := by
  constructor
  · decide
  · rfl

/-- C5 (amended): on the first title-matching result the resolver
returns immediately only when that result carries a pdf-typed link,
taking that link's href fixed up by `fixPdfUrl` (rewriting `/abs/` to
`/pdf/` and appending `.pdf` when the href does not contain `/pdf/`);
a title-matching result with no pdf-typed link is skipped and the scan
continues with the remaining results. -/
theorem arxiv_scan_skips_match_without_pdf_link (t : String) (e : ArxivEntry)
    (rest : List ArxivEntry) (hm : titles_match t e.title = true) :
    arxivScanEntries t (e :: rest) =
      match e.links.find? (fun l => l.linkTitle == some "pdf") with
      | some l => some (fixPdfUrl l.href)
      | none => arxivScanEntries t rest := by
  simp only [arxivScanEntries, hm, if_true, pdfLinkScan_eq_find]
  cases e.links.find? (fun l => l.linkTitle == some "pdf") <;> simp

/-- C5 (witness): a concrete matching entry with a pdf-typed link whose
href is an abstract-page URL; the scan returns the rewritten URL. -/
theorem arxiv_scan_skips_match_without_pdf_link_witness :
    arxivScanEntries "Knowledge Graph Completion Revisited" [entryPdf]
      = some "http://arxiv.org/pdf/2401.12345v2.pdf" := by
  rw [arxiv_scan_skips_match_without_pdf_link "Knowledge Graph Completion Revisited" entryPdf []
        (by decide)]
  rfl

/-- One step of the per-year hit loop, by unfolding the fold. -/
theorem addHits_cons (k v : String) (papers : List Paper) (h : Hit) (rest : List Hit) :
    addHits k v papers (h :: rest)
      = addHits k v
          (if inS (lowerS k) (lowerS h.title) then
             (if inS (lowerS v) (lowerS h.venue) then papers ++ [hitToPaper h] else papers)
           else papers)
          rest := rfl

/-- The hit loop appends exactly the kept hits, in response order. -/
theorem addHits_append (k v : String) (papers : List Paper) (hits : List Hit) :
    addHits k v papers hits = papers ++ (hits.filter (keepHit k v)).map hitToPaper := by
  induction hits generalizing papers with
  | nil => simp [addHits]
  | cons h rest ih =>
    rw [addHits_cons]
    rcases h1 : inS (lowerS k) (lowerS h.title) with _ | _ <;>
    rcases h2 : inS (lowerS v) (lowerS h.venue) with _ | _ <;>
      simp [h1, h2, ih, keepHit, List.filter_cons]

/-- C8: `search_dblp` queries the target year and the previous year,
keeps exactly the server hits whose title contains the keyword and
whose venue contains the requested venue (both case-insensitively),
and returns the target-year records followed by the previous-year
records, each group in server response order. -/
theorem search_dblp_two_year_concat (k v : String) (y : Int)
    (respond : Int → Option (List Hit)) (h1 h2 : List Hit)
    (hy : respond y = some h1) (hy1 : respond (y - 1) = some h2) :
    search_dblp k v y respond
      = (h1.filter (keepHit k v)).map hitToPaper ++ (h2.filter (keepHit k v)).map hitToPaper := by
  unfold search_dblp
  simp [hy, hy1, addHits_append]

/-- C8 (witness): both years respond; the result is the 2025 record
followed by the 2024 record. -/
theorem search_dblp_two_year_concat_witness :
    search_dblp "knowledge graph" "AAAI" 2025 respondBothY
      = [hitToPaper hitW2025, hitToPaper hitW] := by
  rw [search_dblp_two_year_concat "knowledge graph" "AAAI" 2025 respondBothY [hitW2025] [hitW]
        (by decide) (by decide)]
  rfl

/-- C6: a failed query for one of the two years is isolated — the model
is total, so no fault reaches the caller, and the result is exactly
the successful year's filtered records. -/
theorem search_dblp_isolates_year_failure :
    (∀ (k v : String) (y : Int) (respond : Int → Option (List Hit)) (hs : List Hit),
        respond y = none → respond (y - 1) = some hs →
        search_dblp k v y respond = (hs.filter (keepHit k v)).map hitToPaper) ∧
    (∀ (k v : String) (y : Int) (respond : Int → Option (List Hit)) (hs : List Hit),
        respond y = some hs → respond (y - 1) = none →
        search_dblp k v y respond = (hs.filter (keepHit k v)).map hitToPaper) := by
  constructor <;> intro k v y respond hs hy hy1 <;> unfold search_dblp <;>
    simp [hy, hy1, addHits_append]

/-- C6 (witness): the 2025 query errors, the 2024 query succeeds, and
`search_dblp` returns exactly the 2024 record. -/
theorem search_dblp_isolates_year_failure_witness :
    search_dblp "knowledge graph" "AAAI" 2025 respondFailY = [hitToPaper hitW] := by
  rw [search_dblp_isolates_year_failure.1 "knowledge graph" "AAAI" 2025 respondFailY [hitW]
        (by decide) (by decide)]
  rfl

/-- `fsExists` after one write: true at the written path, unchanged
elsewhere. -/
theorem fsExists_fsSet (fs : FS) (p q : String) (d : FileData) :
    fsExists (fsSet fs q d) p = ((q == p) || fsExists fs p) := by
  rcases hq : (q == p) with _ | _
  · have hne : ¬(q = p) := by simpa using hq
    simp only [fsExists, fsSet, List.any_cons, hq, Bool.false_or]
    induction fs with
    | nil => rfl
    | cons e fs ih =>
      rcases he : (e.1 == q) with _ | _
      · simp only [List.filter_cons, he, Bool.not_false, if_true, List.any_cons, ih]
      · have heq : e.1 = q := by simpa using he
        have hep : (e.1 == p) = false := by
          rw [heq]; exact beq_eq_false_iff_ne.mpr hne
        simp [List.filter_cons, he, hep, ih]
  · have : q = p := by simpa using hq
    subst this
    simp [fsExists, fsSet]

/-- C7: if the artifact path already exists, `download_paper` returns
success at once with the state untouched (no metadata rewrite) and no
network activity; consequently, when a first call on a fresh path
returns success, that call performed exactly one transport fetch and a
second identical call performs none. -/
theorem download_skip_and_idempotent :
    (∀ (env : Env) (now : String) (p : Paper) (i : Nat) (st : CState),
        fsExists st.files (filePathFor env p i) = true →
        download_paper env now p i st = ⟨true, st, []⟩) ∧
    (∀ (env : Env) (now : String) (p : Paper) (i : Nat) (st st1 : CState)
        (ev1 : List NetEvent),
        fsExists st.files (filePathFor env p i) = false →
        download_paper env now p i st = ⟨true, st1, ev1⟩ →
        countFetch ev1 = 1 ∧ download_paper env now p i st1 = ⟨true, st1, []⟩) := by
  constructor
  · intro env now p i st h
    unfold download_paper
    simp [h]
  · intro env now p i st st1 ev1 hfresh h2
    unfold download_paper at h2
    simp only [hfresh, Bool.false_eq_true, if_false] at h2
    rcases hsel : selectSource (env.arxiv p.title p.authors) p.ee with _ | ⟨url, prov⟩ <;>
      simp only [hsel] at h2
    · cases h2
    · rcases hf : env.fetch url with ⟨chunks, ct⟩ | _ | msg | ⟨written, msg⟩ <;>
        simp only [hf] at h2
      · cases h2
        constructor
        · rfl
        · unfold download_paper
          simp [fsExists_fsSet]
      · cases h2
      · cases h2
      · cases h2

/-- C7 (witness): with an empty directory the first call fetches once
and succeeds, and the second call returns success with no events and
the state unchanged. -/
theorem download_skip_and_idempotent_witness :
    download_paper envRun "t0" paperN 1
        ⟨[(filePathFor envRun paperN 1, FileData.pdf [])], []⟩
      = ⟨true, ⟨[(filePathFor envRun paperN 1, FileData.pdf [])], []⟩, []⟩ ∧
    countFetch (download_paper envRun "t0" paperN 1 ⟨[], []⟩).events = 1 ∧
    download_paper envRun "t0" paperN 1 (download_paper envRun "t0" paperN 1 ⟨[], []⟩).state
      = ⟨true, (download_paper envRun "t0" paperN 1 ⟨[], []⟩).state, []⟩ := by
  refine ⟨?_, ?_⟩
  · exact download_skip_and_idempotent.1 envRun "t0" paperN 1
      ⟨[(filePathFor envRun paperN 1, FileData.pdf [])], []⟩ (by decide)
  · rcases hE : download_paper envRun "t0" paperN 1 ⟨[], []⟩ with ⟨ok, st1, ev1⟩
    have hok : ok = true := by
      have h : (download_paper envRun "t0" paperN 1 ⟨[], []⟩).ok = true := by decide
      rw [hE] at h; exact h
    subst hok
    exact download_skip_and_idempotent.2 envRun "t0" paperN 1 ⟨[], []⟩ st1 ev1 (by decide) hE

/-- C2 (code bug): the fetch stream breaks after two chunks were
written; `download_paper` reports failure with the exception text, yet
the truncated artifact remains at the deterministic target path, and a
rerun of the same step then returns success from the mere existence of
the truncated file. -/
theorem download_stream_error_leaves_truncated_file :
    (download_paper envBad "t0" paperN 1 ⟨[], []⟩).ok = false ∧
    fsExists (download_paper envBad "t0" paperN 1 ⟨[], []⟩).state.files
      (filePathFor envBad paperN 1) = true ∧
    (download_paper envBad "t0" paperN 1 ⟨[], []⟩).state.failedDownloads
      = [⟨1, "Neural Knowledge Graph Inference", "Connection reset by peer",
          some "http://arxiv.org/pdf/9999.00001v1"⟩] ∧
    (download_paper envBad "t0" paperN 1
        (download_paper envBad "t0" paperN 1 ⟨[], []⟩).state).ok = true := by
  decide

/-- Each `download_paper` call appends at most one failure record, and
appends none exactly when it returns success. -/
theorem download_paper_failures (env : Env) (now : String) (p : Paper) (i : Nat) (st : CState) :
    ∃ add : List Failure,
      (download_paper env now p i st).state.failedDownloads = st.failedDownloads ++ add ∧
      add.length ≤ 1 ∧ ((download_paper env now p i st).ok = true ↔ add = []) := by
  rcases hfe : fsExists st.files (filePathFor env p i) with _ | _
  · rcases hsel : selectSource (env.arxiv p.title p.authors) p.ee with _ | ⟨url, prov⟩
    · exact ⟨[⟨i, p.title, "No accessible PDF URL found", none⟩],
        by simp [download_paper, hfe, hsel], by simp, by simp [download_paper, hfe, hsel]⟩
    · rcases hf : env.fetch url with ⟨chunks, ct⟩ | _ | msg | ⟨written, msg⟩
      · exact ⟨[], by simp [download_paper, hfe, hsel, hf], by simp,
          by simp [download_paper, hfe, hsel, hf]⟩
      · exact ⟨[⟨i, p.title, "403 Forbidden from " ++ sourceName prov, some url⟩],
          by simp [download_paper, hfe, hsel, hf], by simp,
          by simp [download_paper, hfe, hsel, hf]⟩
      · exact ⟨[⟨i, p.title, msg, some url⟩],
          by simp [download_paper, hfe, hsel, hf], by simp,
          by simp [download_paper, hfe, hsel, hf]⟩
      · exact ⟨[⟨i, p.title, msg, some url⟩],
          by simp [download_paper, hfe, hsel, hf], by simp,
          by simp [download_paper, hfe, hsel, hf]⟩
  · exact ⟨[], by simp [download_paper, hfe], by simp, by simp [download_paper, hfe]⟩

/-- Final success and failure counts of the download loop. -/
theorem runLoop_counts (env : Env) (now : String) :
    ∀ (papers : List Paper) (i : Nat) (st : CState) (succ : Nat),
      (runLoop env now papers i st succ).1
          + (runLoop env now papers i st succ).2.failedDownloads.length
        = succ + st.failedDownloads.length + papers.length := by
  intro papers
  induction papers with
  | nil => intro i st succ; simp [runLoop]
  | cons p rest ih =>
    intro i st succ
    have hstep : runLoop env now (p :: rest) i st succ
        = runLoop env now rest (i + 1) (download_paper env now p i st).state
            (if (download_paper env now p i st).ok then succ + 1 else succ) := rfl
    rw [hstep, ih]
    obtain ⟨add, hadd, hlen, hiff⟩ := download_paper_failures env now p i st
    rw [hadd, List.length_append]
    rcases hok : (download_paper env now p i st).ok with _ | _
    · have hne : add ≠ [] := fun hnil => by simp [hiff.mpr hnil] at hok
      have h1 : add.length = 1 := by
        rcases add with _ | ⟨a, tl⟩
        · exact absurd rfl hne
        · simp only [List.length_cons] at hlen ⊢
          omega
      simp [hok]
      omega
    · have : add = [] := hiff.mp hok
      subst this
      simp [hok]
      omega

/-- Every completed run balances its counters. -/
theorem run_counts (env : Env) (now : String) (fs0 : FS)
    (respond : Int → Option (List Hit)) (k v : String) (y : Int) :
    (run env now fs0 respond k v y).successCount
        + (run env now fs0 respond k v y).final.failedDownloads.length
      = (run env now fs0 respond k v y).papers.length := by
  unfold run
  rcases hp : search_dblp k v y respond with _ | ⟨p, ps⟩
  · simp
  · simp only [List.isEmpty_cons, Bool.false_eq_true, if_false]
    have := runLoop_counts env now (p :: ps) 1 ⟨fs0, []⟩ 0
    simp only [List.length_nil] at this
    simpa using this

/-- C10: each `download_paper` call appends at most one failure record
and returns failure exactly when it appends one; hence after a run the
success count plus the failure-list length equals the number of
candidates, so the report's `total − failures` equals the success
count. -/
theorem download_failure_accounting :
    (∀ (env : Env) (now : String) (p : Paper) (i : Nat) (st : CState),
        ∃ add : List Failure,
          (download_paper env now p i st).state.failedDownloads = st.failedDownloads ++ add ∧
          add.length ≤ 1 ∧ ((download_paper env now p i st).ok = true ↔ add = [])) ∧
    (∀ (env : Env) (now : String) (fs0 : FS) (respond : Int → Option (List Hit))
        (k v : String) (y : Int),
        (run env now fs0 respond k v y).successCount
            + (run env now fs0 respond k v y).final.failedDownloads.length
          = (run env now fs0 respond k v y).papers.length) ∧
    (∀ (env : Env) (now : String) (fs0 : FS) (respond : Int → Option (List Hit))
        (k v : String) (y : Int),
        (run env now fs0 respond k v y).papers.length
            - (run env now fs0 respond k v y).final.failedDownloads.length
          = (run env now fs0 respond k v y).successCount) := by
  refine ⟨download_paper_failures, run_counts, ?_⟩
  intro env now fs0 respond k v y
  have := run_counts env now fs0 respond k v y
  omega

/-- C3 (counterexample): a completed run in which both candidates
download successfully writes `all_papers.json` but does not write
`download_report.txt`, contradicting "download_report.txt is always
written". -/
theorem run_all_success_writes_no_report :
    (run envRun "t0" [] respondBothY "knowledge graph" "AAAI" 2025).final.failedDownloads = [] ∧
    fsExists (run envRun "t0" [] respondBothY "knowledge graph" "AAAI" 2025).final.files
      "aaai_kg_papers/all_papers.json" = true ∧
    fsExists (run envRun "t0" [] respondBothY "knowledge graph" "AAAI" 2025).final.files
      "aaai_kg_papers/download_report.txt" = false := by
  decide

/-- C3 (amended): whenever `save_results` runs it writes
`all_papers.json`; with an empty failure list it writes nothing else,
and with a non-empty failure list it also writes both
`failed_downloads.json` and `download_report.txt`; moreover a run that
finds no candidates returns before `save_results`, writing no report
files at all. -/
theorem save_results_reports_conditional :
    (∀ (env : Env) (now : String) (papers : List Paper) (failed : List Failure) (fs : FS),
        fsExists (save_results env now papers failed fs)
          (env.outputDir ++ "/all_papers.json") = true) ∧
    (∀ (env : Env) (now : String) (papers : List Paper) (fs : FS),
        save_results env now papers [] fs
          = fsSet fs (env.outputDir ++ "/all_papers.json") (FileData.papersJson papers)) ∧
    (∀ (env : Env) (now : String) (papers : List Paper) (failed : List Failure) (fs : FS),
        failed ≠ [] →
        fsExists (save_results env now papers failed fs)
            (env.outputDir ++ "/download_report.txt") = true ∧
        fsExists (save_results env now papers failed fs)
            (env.outputDir ++ "/failed_downloads.json") = true) ∧
    (∀ (env : Env) (now : String) (fs0 : FS) (respond : Int → Option (List Hit))
        (k v : String) (y : Int),
        search_dblp k v y respond = [] →
        run env now fs0 respond k v y = ⟨[], 0, ⟨fs0, []⟩⟩) := by
  refine ⟨?_, ?_, ?_, ?_⟩
  · intro env now papers failed fs
    unfold save_results
    rcases failed with _ | ⟨f, fl⟩ <;> simp [fsExists_fsSet]
  · intro env now papers fs
    rfl
  · intro env now papers failed fs hne
    unfold save_results
    rcases failed with _ | ⟨f, fl⟩
    · exact absurd rfl hne
    · constructor <;> simp [fsExists_fsSet]
  · intro env now fs0 respond k v y h
    unfold run
    simp [h]

/-- C3 (witness): with one failure the report and failure files exist;
with no failures only `all_papers.json` is written; a candidate-less
run leaves the filesystem untouched. -/
theorem save_results_reports_conditional_witness :
    fsExists (save_results envRun "t0" [paperN] [⟨1, "T", "err", none⟩] [])
      (envRun.outputDir ++ "/download_report.txt") = true ∧
    save_results envRun "t0" [paperN] [] []
      = fsSet [] (envRun.outputDir ++ "/all_papers.json") (FileData.papersJson [paperN]) ∧
    run envRun "t0" [] (fun _ => none) "knowledge graph" "AAAI" 2025 = ⟨[], 0, ⟨[], []⟩⟩ := by
  refine ⟨?_, ?_, ?_⟩
  · exact (save_results_reports_conditional.2.2.1 envRun "t0" [paperN]
      [⟨1, "T", "err", none⟩] [] (by simp)).1
  · exact save_results_reports_conditional.2.1 envRun "t0" [paperN] []
  · exact save_results_reports_conditional.2.2.2 envRun "t0" []
      (fun _ => none) "knowledge graph" "AAAI" 2025 rfl

end Crawler
